import Mathlib

/-!
# CORS demo backend (后端CORS示例.go)

A shallow embedding of the single Go source file of the repository: the two
record types, the CORS annotator `enableCORS`, the preflight helper
`handleOptions`, the two handlers `msgHandler` and `listHandler`, and the
route table that `main` registers on the default mux.

The parts of `net/http`, `encoding/json`, `time` and `log` that the source
calls are modelled only as far as the source observes them:

* `http.Header` and `url.Values` are maps from a key to a list of values;
  a missing key reads as the empty list, `Get` reads the first value or `""`.
* an `http.ResponseWriter` is the mutable header map, the status line once
  committed (together with the header map as it stood at that moment) and the
  body written so far.  The first `WriteHeader` wins, a `Write` before any
  `WriteHeader` commits status 200, and so does the return of a handler that
  wrote nothing.
* the wall clock, the JSON string encoder and the text `http.Redirect` renders
  from its target are parameters.
* `main` serves with `http.ListenAndServe(":1066", nil)`, so requests go
  through `net/http` before they reach a registered handler.  That part is
  modelled after Go 1.22 and later: the server answers `OPTIONS *` itself, the
  default mux answers any other method on `*` with 400, redirects a path that
  its cleaning changes with 301 (CONNECT apart), and otherwise picks the most
  specific of the three patterns `/msg`, `/list` and `/`.
* a response holds the status, the headers set by the code that answered (not
  the ones the server adds on its own, such as `Date`), the body as sent (none
  in answer to HEAD) and the records logged on the way.
-/

namespace CORSDemo

/-! ## Library model -/

/-- Multi-valued string map, the shape shared by Go's `url.Values` and
`http.Header`.  A key that is not in the map reads as the empty list. -/
def Values : Type := String → List String

/-- The map with no keys. -/
def Values.empty : Values := fun _ => []

/-- `Get` of `url.Values` / `http.Header`: first value of the key, `""` when
there is none. -/
def Values.Get (v : Values) (key : String) : String :=
  match v key with
  | [] => ""
  | x :: _ => x

/-- `Set` of `url.Values` / `http.Header`: the key now holds exactly one value. -/
def Values.Set (v : Values) (key value : String) : Values :=
  fun k => if k = key then [value] else v k

/-- `Del` of `url.Values` / `http.Header`. -/
def Values.Del (v : Values) (key : String) : Values :=
  fun k => if k = key then [] else v k

/-- A request that the server has read and hands to its handler: the fields of
`*http.Request` that the source and the mux read.

* `Path` is the path of the request target as the mux reads it,
  `r.URL.EscapedPath()`: the empty string, `*` (exactly when `r.RequestURI` is
  `*`), or a string that starts with a slash.
* `RawQuery` is `r.URL.RawQuery` and `Proto11` is `r.ProtoAtLeast(1, 1)`.
* `Query` is `r.URL.Query()`.
* `ParseForm` is the outcome of `r.ParseForm()`: `none` when it returns an
  error, otherwise the form it leaves in `r.Form`. -/
structure Request where
  Method : String
  Path : String
  RawQuery : String := ""
  Proto11 : Bool := true
  Query : Values
  Header : Values
  RemoteAddr : String
  ParseForm : Option Values

/-- `r.FormValue(key)` on a parsed form: first value of the key or `""`. -/
def FormValue (form : Values) (key : String) : String :=
  Values.Get form key

/-- State of an `http.ResponseWriter` during one request. -/
structure ResponseWriter where
  /-- The header map returned by `w.Header()`. -/
  header : Values
  /-- The status code, once `WriteHeader` has run (explicitly or implicitly). -/
  status : Option Nat
  /-- The header map as it stood when the status was committed. -/
  sent : Values
  /-- The body bytes written so far. -/
  body : String

/-- The writer a handler receives: nothing set, nothing written. -/
def ResponseWriter.fresh : ResponseWriter :=
  { header := Values.empty, status := none, sent := Values.empty, body := "" }

/-- Models `w.Header().Set(key, value)`. -/
def ResponseWriter.SetHeader (w : ResponseWriter) (key value : String) : ResponseWriter :=
  { w with header := Values.Set w.header key value }

/-- Models `w.Header().Del(key)`. -/
def ResponseWriter.DelHeader (w : ResponseWriter) (key : String) : ResponseWriter :=
  { w with header := Values.Del w.header key }

/-- Models `w.WriteHeader(code)`: the first call commits the status and the
current header map, later calls change nothing. -/
def ResponseWriter.WriteHeader (w : ResponseWriter) (code : Nat) : ResponseWriter :=
  match w.status with
  | some _ => w
  | none => { w with status := some code, sent := w.header }

/-- Models `w.Write(s)`: commits status 200 first when no status has been
written, then appends to the body. -/
def ResponseWriter.Write (w : ResponseWriter) (s : String) : ResponseWriter :=
  let w1 := w.WriteHeader 200
  { w1 with body := w1.body ++ s }

/-- Models `http.Error(w, error, code)`: drops `Content-Length`, sets the
plain-text content type and `nosniff`, commits the status and writes the
message followed by a newline.  Headers set earlier by the caller stay. -/
def httpError (w : ResponseWriter) (error : String) (code : Nat) : ResponseWriter :=
  let w := w.DelHeader "Content-Length"
  let w := w.SetHeader "Content-Type" "text/plain; charset=utf-8"
  let w := w.SetHeader "X-Content-Type-Options" "nosniff"
  let w := w.WriteHeader code
  w.Write (error ++ "\n")

/-- Models `http.NotFound(w, r)`. -/
def httpNotFound (w : ResponseWriter) : ResponseWriter :=
  httpError w "404 page not found" 404

/-! ## Data model of the source -/

/-- The source's `Message` struct (消息结构体). -/
structure Message where
  User : String
  Msg : String
  Cate : String
  Time : String
  IP : String
deriving DecidableEq, Repr

/-- The source's `Response` struct (响应结构体).  The list stands for a non-nil
slice, the only kind the source builds. -/
structure Response where
  Msgs : List Message
deriving DecidableEq, Repr

/-- JSON object of one `Message`, keys in field order; `quote` is the string
encoder of `encoding/json`. -/
def Message.json (quote : String → String) (m : Message) : String :=
  "\x7b\"User\":" ++ quote m.User ++ ",\"Msg\":" ++ quote m.Msg ++ ",\"Cate\":" ++ quote m.Cate
    ++ ",\"Time\":" ++ quote m.Time ++ ",\"IP\":" ++ quote m.IP ++ "\x7d"

/-- JSON object of a `Response`: the single key `Msgs` holding an array. -/
def Response.json (quote : String → String) (resp : Response) : String :=
  "\x7b\"Msgs\":[" ++ String.intercalate "," (resp.Msgs.map (Message.json quote)) ++ "]\x7d"

/-- Models `json.NewEncoder(w).Encode(response)`: the JSON text followed by a
newline character is written to `w`. -/
def jsonEncode (quote : String → String) (w : ResponseWriter) (resp : Response) : ResponseWriter :=
  w.Write (Response.json quote resp ++ "\n")

/-! ## The handlers -/

/-- What a handler leaves behind: the writer and the records it logged with
`log.Printf`. -/
structure HandlerResult where
  w : ResponseWriter
  logged : List Message

/-- The source's `enableCORS`: four `Header().Set` calls. -/
def enableCORS (w : ResponseWriter) (_r : Request) : ResponseWriter :=
  let w := w.SetHeader "Access-Control-Allow-Origin" "*"
  let w := w.SetHeader "Access-Control-Allow-Methods" "GET, POST, OPTIONS"
  let w := w.SetHeader "Access-Control-Allow-Headers" "Content-Type"
  w.SetHeader "Access-Control-Max-Age" "86400"

/-- The source's `handleOptions`. -/
def handleOptions (w : ResponseWriter) (r : Request) : ResponseWriter :=
  let w := enableCORS w r
  w.WriteHeader 200

/-- The source's `msgHandler`; `now` is `time.Now().Format("2006-01-02 15:04:05")`. -/
def msgHandler (now : String) (w : ResponseWriter) (r : Request) : HandlerResult :=
  let w := enableCORS w r
  if r.Method = "OPTIONS" then
    { w := w, logged := [] }
  else if r.Method ≠ "POST" then
    { w := httpError w "Method not allowed" 405, logged := [] }
  else
    match r.ParseForm with
    | none => { w := httpError w "Failed to parse form" 400, logged := [] }
    | some form =>
      let user := FormValue form "user"
      let msg := FormValue form "msg"
      let cate := FormValue form "cate"
      if user = "" ∨ msg = "" ∨ cate = "" then
        { w := httpError w "Missing required fields" 400, logged := [] }
      else
        let clientIP :=
          if Values.Get r.Header "X-Forwarded-For" ≠ "" then Values.Get r.Header "X-Forwarded-For"
          else r.RemoteAddr
        let message : Message :=
          { User := user, Msg := msg, Cate := cate, Time := now, IP := clientIP }
        let w := w.WriteHeader 200
        { w := w.Write "消息发送成功！", logged := [message] }

/-- The source's `listHandler`; `quote` is the JSON string encoder. -/
def listHandler (quote : String → String) (w : ResponseWriter) (r : Request) : HandlerResult :=
  let w := enableCORS w r
  if r.Method = "OPTIONS" then
    { w := w, logged := [] }
  else if r.Method ≠ "GET" then
    { w := httpError w "Method not allowed" 405, logged := [] }
  else
    let cate := Values.Get r.Query "cate"
    if cate = "" then
      { w := httpError w "Missing cate parameter" 400, logged := [] }
    else
      let response : Response := { Msgs := [] }
      let w := w.SetHeader "Content-Type" "application/json"
      { w := jsonEncode quote w response, logged := [] }

/-- The anonymous handler that `main` registers on pattern `/`. -/
def rootHandler (w : ResponseWriter) (r : Request) : HandlerResult :=
  if r.Method = "OPTIONS" then
    { w := handleOptions w r, logged := [] }
  else
    { w := httpNotFound w, logged := [] }

/-! ## Serving one request -/

/-- The response as it leaves the server, with the records logged on the way. -/
structure HTTPResponse where
  status : Nat
  header : Values
  body : String
  logged : List Message

/-- End of a handler call: a handler that never committed a status gets 200
with the header map as it stands, and the server sends no body in answer to a
HEAD request, whatever the handler wrote. -/
def finish (r : Request) (res : HandlerResult) : HTTPResponse :=
  let body := if r.Method = "HEAD" then "" else res.w.body
  match res.w.status with
  | some code => { status := code, header := res.w.sent, body := body, logged := res.logged }
  | none => { status := 200, header := res.w.header, body := body, logged := res.logged }

/-- Runs one handler on a fresh writer and returns the finished response. -/
def respond (h : ResponseWriter → Request → HandlerResult) (r : Request) : HTTPResponse :=
  finish r (h ResponseWriter.fresh r)

/-! ### Path cleaning of the mux -/

/-- The elements of a path: the pieces between its slashes, empty ones included. -/
def splitSlash : List Char → List (List Char)
  | [] => [[]]
  | c :: cs =>
    if c = '/' then [] :: splitSlash cs
    else
      match splitSlash cs with
      | [] => [[c]]
      | seg :: rest => (c :: seg) :: rest

/-- One element of a rooted path under `path.Clean`: an empty element and `.`
are dropped, `..` removes the element kept last (nothing at the root), any
other element is kept. -/
def cleanStep (kept : List (List Char)) (elem : List Char) : List (List Char) :=
  if elem = [] ∨ elem = ['.'] then kept
  else if elem = ['.', '.'] then kept.dropLast
  else kept ++ [elem]

/-- The rooted path made of the given elements; the root alone when there are none. -/
def joinRooted : List (List Char) → List Char
  | [] => ['/']
  | [e] => '/' :: e
  | e :: rest => '/' :: e ++ joinRooted rest

/-- Models `path.Clean` on a path that starts with a slash. -/
def pathCleanRooted (p : List Char) : List Char :=
  joinRooted ((splitSlash p).foldl cleanStep [])

/-- The characters of `cleanPath`. -/
def cleanPathChars : List Char → List Char
  | [] => ['/']
  | c :: cs =>
    let q := if c = '/' then c :: cs else '/' :: c :: cs
    let np := pathCleanRooted q
    if q.getLast? = some '/' ∧ np ≠ ['/'] then np ++ ['/'] else np

/-- Models `cleanPath` of `net/http`: the empty path becomes `/`, a leading slash
is added when missing, the path is cleaned with `path.Clean`, and a trailing
slash that the cleaning removed is put back. -/
def cleanPath (p : String) : String :=
  String.mk (cleanPathChars p.toList)

/-! ### Pattern matching of the mux -/

/-- Value of a hexadecimal digit. -/
def unhex (c : Char) : Option Nat :=
  if '0' ≤ c ∧ c ≤ '9' then some (c.toNat - '0'.toNat)
  else if 'a' ≤ c ∧ c ≤ 'f' then some (c.toNat - 'a'.toNat + 10)
  else if 'A' ≤ c ∧ c ≤ 'F' then some (c.toNat - 'A'.toNat + 10)
  else none

/-- Models `url.PathUnescape` on one path element, as bytes: `%XY` becomes the
byte it spells, every other character stands for itself (an escaped path is
ASCII); `none` when a `%` is not followed by two hexadecimal digits. -/
def unescape : List Char → Option (List Nat)
  | [] => some []
  | c :: rest =>
    if c = '%' then
      match rest with
      | a :: b :: tl =>
        match unhex a, unhex b, unescape tl with
        | some x, some y, some t => some ((16 * x + y) :: t)
        | _, _, _ => none
      | _ => none
    else (unescape rest).map (fun t => c.toNat :: t)

/-- Models `pathUnescape` of the mux: an element that does not unescape is used
as it is written. -/
def pathUnescape (seg : List Char) : List Nat :=
  (unescape seg).getD (seg.map Char.toNat)

/-- The path matches a pattern made of one literal element, such as `/msg`: it
is a slash followed by a single element that unescapes to the literal. -/
def matchesLiteral (lit : String) (path : String) : Bool :=
  match path.toList with
  | c :: seg => c = '/' ∧ '/' ∉ seg ∧ pathUnescape seg = lit.toList.map Char.toNat
  | [] => false

/-! ### Answers of `net/http` itself -/

/-- The two renderings of a redirect target (a path and a raw query) that
`http.Redirect` writes, taken as parameters: the value of the `Location`
header and the address inside the HTML anchor of the body. -/
structure RedirectText where
  location : String → String → String
  anchor : String → String → String

/-- Models `http.RedirectHandler(u.String(), http.StatusMovedPermanently)` for
the URL with the given path and the raw query of the request: `Location` is
set, `Content-Type` too for GET and HEAD when none was set, status 301 is
committed, and GET gets the short HTML body. -/
def redirectHandler (txt : RedirectText) (path : String) (w : ResponseWriter) (r : Request) :
    HandlerResult :=
  let hadCT := decide (w.header "Content-Type" ≠ [])
  let w := w.SetHeader "Location" (txt.location path r.RawQuery)
  let w :=
    if hadCT = false ∧ (r.Method = "GET" ∨ r.Method = "HEAD") then
      w.SetHeader "Content-Type" "text/html; charset=utf-8"
    else w
  let w := w.WriteHeader 301
  let w :=
    if hadCT = false ∧ r.Method = "GET" then
      w.Write ("<a href=\"" ++ txt.anchor path r.RawQuery ++ "\">Moved Permanently</a>.\n" ++ "\n")
    else w
  { w := w, logged := [] }

/-- Models `http.NotFoundHandler()`, the answer of the mux when no pattern matches. -/
def notFoundHandler (w : ResponseWriter) (_r : Request) : HandlerResult :=
  { w := httpNotFound w, logged := [] }

/-- Models the handler with which the server answers `OPTIONS *` itself: it
sets `Content-Length: 0` and writes nothing. -/
def globalOptionsHandler (w : ResponseWriter) (_r : Request) : HandlerResult :=
  { w := w.SetHeader "Content-Length" "0", logged := [] }

/-! ### The route table of `main` and the server around it -/

/-- The three `http.HandleFunc` registrations of `main`, as the mux matches a
path against them: `/msg` and `/list` match their one element, `/` matches
every path that starts with a slash, and the more specific pattern wins. -/
def route (now : String) (quote : String → String) (path : String) :
    ResponseWriter → Request → HandlerResult :=
  if matchesLiteral "msg" path then msgHandler now
  else if matchesLiteral "list" path then listHandler quote
  else if path.toList.head? = some '/' then rootHandler
  else notFoundHandler

/-- Models how `DefaultServeMux` finds the handler of a request.  A CONNECT
request is matched as it is written, except that the empty path is redirected
to the pattern `/`.  For every other method the path is cleaned first; a path
that the cleaning changes is redirected to the cleaned path, without any
registered handler being called. -/
def findHandler (txt : RedirectText) (now : String) (quote : String → String) (r : Request) :
    ResponseWriter → Request → HandlerResult :=
  if r.Method = "CONNECT" then
    if r.Path = "" then redirectHandler txt (cleanPath r.Path ++ "/")
    else route now quote r.Path
  else
    let path := cleanPath r.Path
    if path ≠ r.Path then redirectHandler txt path
    else route now quote path

/-- Models `DefaultServeMux.ServeHTTP`: the request target `*` gets 400 (with
`Connection: close` from HTTP/1.1 on), any other target goes to the handler
found for it. -/
def muxServeHTTP (txt : RedirectText) (now : String) (quote : String → String)
    (w : ResponseWriter) (r : Request) : HandlerResult :=
  if r.Path = "*" then
    let w := if r.Proto11 = true then w.SetHeader "Connection" "close" else w
    { w := w.WriteHeader 400, logged := [] }
  else findHandler txt now quote r w r

/-- Models the handler of the server that `http.ListenAndServe(":1066", nil)`
runs: `OPTIONS *` is answered by the server, everything else by the default mux. -/
def serverHandler (txt : RedirectText) (now : String) (quote : String → String)
    (w : ResponseWriter) (r : Request) : HandlerResult :=
  if r.Path = "*" ∧ r.Method = "OPTIONS" then globalOptionsHandler w r
  else muxServeHTTP txt now quote w r

/-- One request through the server that `main` starts. -/
def serve (txt : RedirectText) (now : String) (quote : String → String) (r : Request) :
    HTTPResponse :=
  respond (serverHandler txt now quote) r

/-- The success body of `msgHandler`. -/
def successBody : String := "消息发送成功！"

/-- The text `listHandler` is specified to return. -/
def emptyListing : String := "\x7b\"Msgs\":[]\x7d"

/-- A header map carries all four CORS headers with the values of `enableCORS`. -/
def HasCORS (h : Values) : Prop :=
  Values.Get h "Access-Control-Allow-Origin" = "*" ∧
  Values.Get h "Access-Control-Allow-Methods" = "GET, POST, OPTIONS" ∧
  Values.Get h "Access-Control-Allow-Headers" = "Content-Type" ∧
  Values.Get h "Access-Control-Max-Age" = "86400"

/-- The header map after `enableCORS` on a fresh writer. -/
def corsHeader : Values :=
  Values.Set (Values.Set (Values.Set (Values.Set Values.empty
    "Access-Control-Allow-Origin" "*")
    "Access-Control-Allow-Methods" "GET, POST, OPTIONS")
    "Access-Control-Allow-Headers" "Content-Type")
    "Access-Control-Max-Age" "86400"

/-- The header map after `http.Error` on a writer whose header map was `h`. -/
def errorHeader (h : Values) : Values :=
  Values.Set (Values.Set (Values.Del h "Content-Length")
    "Content-Type" "text/plain; charset=utf-8")
    "X-Content-Type-Options" "nosniff"

/-! ## Sample requests -/

/-- A form or query holding the given single-valued fields. -/
def Values.ofList : List (String × String) → Values
  | [] => Values.empty
  | (k, v) :: rest => fun key => if key = k then [v] else Values.ofList rest key

/-- The request `POST /msg` with form `user=alice&msg=hello&cate=general`. -/
def samplePost : Request :=
  { Method := "POST", Path := "/msg", Query := Values.empty, Header := Values.empty,
    RemoteAddr := "192.0.2.1:5000",
    ParseForm := some (Values.ofList [("user", "alice"), ("msg", "hello"), ("cate", "general")]) }

/-- The request `GET /list?cate=general`. -/
def sampleList : Request :=
  { Method := "GET", Path := "/list", RawQuery := "cate=general",
    Query := Values.ofList [("cate", "general")],
    Header := Values.empty, RemoteAddr := "192.0.2.1:5000",
    ParseForm := some (Values.ofList [("cate", "general")]) }

/-- The request `GET /nope`. -/
def sampleUnknown : Request :=
  { Method := "GET", Path := "/nope", Query := Values.empty, Header := Values.empty,
    RemoteAddr := "192.0.2.1:5000", ParseForm := some Values.empty }

/-- The preflight request `OPTIONS /msg`. -/
def samplePreflight : Request :=
  { Method := "OPTIONS", Path := "/msg", Query := Values.empty, Header := Values.empty,
    RemoteAddr := "192.0.2.1:5000", ParseForm := some Values.empty }

/-- The request `GET /msg`. -/
def sampleGetMsg : Request :=
  { Method := "GET", Path := "/msg", Query := Values.empty, Header := Values.empty,
    RemoteAddr := "192.0.2.1:5000", ParseForm := some Values.empty }

/-- The request `PUT /msg` with the complete form `user=alice&msg=hello&cate=general`. -/
def samplePut : Request :=
  { Method := "PUT", Path := "/msg", Query := Values.empty, Header := Values.empty,
    RemoteAddr := "192.0.2.1:5000",
    ParseForm := some (Values.ofList [("user", "alice"), ("msg", "hello"), ("cate", "general")]) }

/-- The request `DELETE /list?cate=general`. -/
def sampleDelete : Request :=
  { Method := "DELETE", Path := "/list", RawQuery := "cate=general",
    Query := Values.ofList [("cate", "general")],
    Header := Values.empty, RemoteAddr := "192.0.2.1:5000",
    ParseForm := some (Values.ofList [("cate", "general")]) }

/-- The request `POST /msg` with form `user=alice&msg=hello`: no `cate` field. -/
def sampleMissing : Request :=
  { Method := "POST", Path := "/msg", Query := Values.empty, Header := Values.empty,
    RemoteAddr := "192.0.2.1:5000",
    ParseForm := some (Values.ofList [("user", "alice"), ("msg", "hello")]) }

/-- The request `GET /list` without a query string. -/
def sampleNoCate : Request :=
  { Method := "GET", Path := "/list", Query := Values.empty, Header := Values.empty,
    RemoteAddr := "192.0.2.1:5000", ParseForm := some Values.empty }

/-- The request `GET /list?cate=other`. -/
def sampleListOther : Request :=
  { Method := "GET", Path := "/list", RawQuery := "cate=other",
    Query := Values.ofList [("cate", "other")],
    Header := Values.empty, RemoteAddr := "192.0.2.1:5000",
    ParseForm := some (Values.ofList [("cate", "other")]) }

/-- The preflight request `OPTIONS /nope`. -/
def sampleOptionsUnknown : Request :=
  { Method := "OPTIONS", Path := "/nope", Query := Values.empty, Header := Values.empty,
    RemoteAddr := "192.0.2.1:5000", ParseForm := some Values.empty }

/-- The request of `samplePost` arriving through a proxy that set
`X-Forwarded-For: 203.0.113.7`. -/
def sampleForwarded : Request :=
  { samplePost with Header := Values.ofList [("X-Forwarded-For", "203.0.113.7")] }

/-- A sample reading of the wall clock in the layout `2006-01-02 15:04:05`. -/
def sampleNow : String := "2024-05-01 10:00:00"

/-- A sample JSON string encoder: wraps the text in double quotes. -/
def sampleQuote (s : String) : String := "\"" ++ s ++ "\""

/-- A sample rendering of redirect targets, for targets in which nothing needs
escaping: the path, then `?` and the query when there is one. -/
def sampleText : RedirectText :=
  { location := fun path query => if query = "" then path else path ++ "?" ++ query,
    anchor := fun path query => if query = "" then path else path ++ "?" ++ query }

/-- The request `GET //nope`. -/
def sampleSlashes : Request :=
  { Method := "GET", Path := "//nope", Query := Values.empty, Header := Values.empty,
    RemoteAddr := "192.0.2.1:5000", ParseForm := some Values.empty }

/-- The request `GET /a/../list?cate=general`. -/
def sampleDotDot : Request :=
  { Method := "GET", Path := "/a/../list", RawQuery := "cate=general",
    Query := Values.ofList [("cate", "general")],
    Header := Values.empty, RemoteAddr := "192.0.2.1:5000",
    ParseForm := some (Values.ofList [("cate", "general")]) }

/-- The preflight request `OPTIONS //nope`. -/
def sampleOptionsSlashes : Request :=
  { Method := "OPTIONS", Path := "//nope", Query := Values.empty, Header := Values.empty,
    RemoteAddr := "192.0.2.1:5000", ParseForm := some Values.empty }

/-- The request `OPTIONS *`. -/
def sampleOptionsStar : Request :=
  { Method := "OPTIONS", Path := "*", Query := Values.empty, Header := Values.empty,
    RemoteAddr := "192.0.2.1:5000", ParseForm := some Values.empty }

/-- The request `HEAD /msg`. -/
def sampleHeadMsg : Request :=
  { Method := "HEAD", Path := "/msg", Query := Values.empty, Header := Values.empty,
    RemoteAddr := "192.0.2.1:5000", ParseForm := some Values.empty }

/-- The characters that stand unescaped in an escaped URL path: letters, digits
and the marks `- _ . ~ $ & + , / : ; = @ ! ( ) * [ ]` and the apostrophe. -/
def pathChar (c : Char) : Bool :=
  c.isAlphanum || "-_.~$&+,/:;=@!()*[]".toList.contains c || c = Char.ofNat 39

/-- The path is in the form the mux hands on as it is: cleaning leaves it
unchanged, and it is written with unescaped path characters only, so without
percent-escapes. -/
def Canonical (path : String) : Prop :=
  cleanPath path = path ∧ ∀ c ∈ path.toList, pathChar c = true

/-- Decision procedure for `Canonical`. -/
instance instDecidableCanonical (path : String) : Decidable (Canonical path) :=
  inferInstanceAs (Decidable (cleanPath path = path ∧ ∀ c ∈ path.toList, pathChar c = true))

/-! ## Shared lemmas: paths -/

theorem joinRooted_head (l : List (List Char)) : ∃ t, joinRooted l = '/' :: t := by
  cases l with
  | nil => exact ⟨_, rfl⟩
  | cons e rest => cases rest <;> exact ⟨_, rfl⟩

theorem cleanPathChars_rooted (p : List Char) : ∃ t, cleanPathChars p = '/' :: t := by
  cases p with
  | nil => exact ⟨_, rfl⟩
  | cons c cs =>
    obtain ⟨t, ht⟩ := joinRooted_head
      ((splitSlash (if c = '/' then c :: cs else '/' :: c :: cs)).foldl cleanStep [])
    simp only [cleanPathChars, pathCleanRooted, ht]
    split_ifs <;> exact ⟨_, rfl⟩

theorem cleanPath_rooted (p : String) : ∃ t, (cleanPath p).toList = '/' :: t :=
  cleanPathChars_rooted p.toList

theorem canonical_plain (path : String) (h : Canonical path) : '%' ∉ path.toList := by
  intro hmem
  exact absurd (h.2 '%' hmem) (by decide)

theorem canonical_rooted (path : String) (h : Canonical path) :
    ∃ t, path.toList = '/' :: t := by
  obtain ⟨t, ht⟩ := cleanPath_rooted path
  rw [h.1] at ht
  exact ⟨t, ht⟩

theorem unescape_cons_ne (c : Char) (rest : List Char) (hc : c ≠ '%') :
    unescape (c :: rest) = (unescape rest).map (fun t => c.toNat :: t) := by
  cases rest with
  | nil => simp [unescape, hc]
  | cons a t => cases t <;> simp [unescape, hc]

theorem unescape_plain (seg : List Char) (h : '%' ∉ seg) :
    unescape seg = some (seg.map Char.toNat) := by
  induction seg with
  | nil => rfl
  | cons c rest ih =>
    have hc : c ≠ '%' := fun e => h (by simp [e])
    have hr : '%' ∉ rest := fun e => h (by simp [e])
    rw [unescape_cons_ne c rest hc, ih hr]
    rfl

theorem toNat_map_injective : Function.Injective (List.map Char.toNat) := by
  apply List.map_injective_iff.mpr
  intro a b hab
  rw [← Char.ofNat_toNat a, ← Char.ofNat_toNat b, hab]

/-- Without percent-escapes a one-element pattern matches its own text only. -/
theorem matchesLiteral_plain (lit path : String) (h : '%' ∉ path.toList)
    (hm : matchesLiteral lit path = true) : path = "/" ++ lit := by
  unfold matchesLiteral at hm
  cases hp : path.toList with
  | nil => rw [hp] at hm; simp at hm
  | cons c seg =>
    rw [hp] at hm h
    have hs : '%' ∉ seg := fun e => h (by simp [e])
    simp only [decide_eq_true_eq] at hm
    obtain ⟨hc, _, hu⟩ := hm
    rw [pathUnescape, unescape_plain seg hs, Option.getD_some] at hu
    have hseg := toNat_map_injective hu
    apply String.ext
    rw [String.toList] at hp
    rw [hp, hc, hseg]
    rfl

theorem route_msg (now : String) (quote : String → String) :
    route now quote "/msg" = msgHandler now := by
  have h : matchesLiteral "msg" "/msg" = true := by decide
  simp [route, h]

theorem route_list (now : String) (quote : String → String) :
    route now quote "/list" = listHandler quote := by
  have h1 : matchesLiteral "msg" "/list" = false := by decide
  have h2 : matchesLiteral "list" "/list" = true := by decide
  simp [route, h1, h2]

theorem route_other (now : String) (quote : String → String) (path : String)
    (hc : Canonical path) (h1 : path ≠ "/msg") (h2 : path ≠ "/list") :
    route now quote path = rootHandler := by
  have m1 : matchesLiteral "msg" path = false := by
    cases hm : matchesLiteral "msg" path with
    | false => rfl
    | true => exact absurd (matchesLiteral_plain "msg" path (canonical_plain path hc) hm) h1
  have m2 : matchesLiteral "list" path = false := by
    cases hm : matchesLiteral "list" path with
    | false => rfl
    | true => exact absurd (matchesLiteral_plain "list" path (canonical_plain path hc) hm) h2
  obtain ⟨t, ht⟩ := canonical_rooted path hc
  have hd : path.data = '/' :: t := ht
  simp [route, m1, m2, hd]

/-- On a canonical path the server calls the handler that the route table
gives for that path, whatever the method. -/
theorem serverHandler_canonical (txt : RedirectText) (now : String) (quote : String → String)
    (w : ResponseWriter) (r : Request) (hc : Canonical r.Path) :
    serverHandler txt now quote w r = route now quote r.Path w r := by
  obtain ⟨t, ht⟩ := canonical_rooted r.Path hc
  have hstar : r.Path ≠ "*" := by
    intro e
    rw [e] at ht
    change ['*'] = '/' :: t at ht
    exact absurd (List.cons.inj ht).1 (by decide)
  have hempty : r.Path ≠ "" := by
    intro e
    rw [e] at ht
    change [] = '/' :: t at ht
    exact absurd ht (List.cons_ne_nil _ _).symm
  simp [serverHandler, muxServeHTTP, findHandler, hstar, hempty, hc.1]

theorem serve_canonical (txt : RedirectText) (now : String) (quote : String → String)
    (r : Request) (hc : Canonical r.Path) :
    serve txt now quote r = respond (route now quote r.Path) r := by
  simp [serve, respond, serverHandler_canonical txt now quote _ r hc]

theorem serve_msg (txt : RedirectText) (now : String) (quote : String → String) (r : Request)
    (h : r.Path = "/msg") : serve txt now quote r = respond (msgHandler now) r := by
  have hc : Canonical r.Path := by rw [h]; decide
  rw [serve_canonical txt now quote r hc, h, route_msg]

theorem serve_list (txt : RedirectText) (now : String) (quote : String → String) (r : Request)
    (h : r.Path = "/list") : serve txt now quote r = respond (listHandler quote) r := by
  have hc : Canonical r.Path := by rw [h]; decide
  rw [serve_canonical txt now quote r hc, h, route_list]

theorem serve_other (txt : RedirectText) (now : String) (quote : String → String) (r : Request)
    (hc : Canonical r.Path) (h1 : r.Path ≠ "/msg") (h2 : r.Path ≠ "/list") :
    serve txt now quote r = respond rootHandler r := by
  rw [serve_canonical txt now quote r hc, route_other now quote r.Path hc h1 h2]

/-! ## Shared lemmas: the response of each branch -/

theorem enableCORS_fresh (r : Request) :
    enableCORS ResponseWriter.fresh r =
      { header := corsHeader, status := none, sent := Values.empty, body := "" } := rfl

theorem httpError_uncommitted (h s : Values) (error : String) (code : Nat) :
    httpError { header := h, status := none, sent := s, body := "" } error code =
      { header := errorHeader h, status := some code, sent := errorHeader h,
        body := "" ++ (error ++ "\n") } := rfl

theorem hasCORS_corsHeader : HasCORS corsHeader := by
  simp [HasCORS, corsHeader, Values.Get, Values.Set]

theorem hasCORS_errorHeader : HasCORS (errorHeader corsHeader) := by
  simp [HasCORS, errorHeader, corsHeader, Values.Get, Values.Set, Values.Del]

theorem respond_msgHandler_options (now : String) (r : Request) (h : r.Method = "OPTIONS") :
    respond (msgHandler now) r =
      { status := 200, header := corsHeader, body := "", logged := [] } := by
  simp [respond, msgHandler, h, enableCORS_fresh, finish]

theorem respond_msgHandler_method (now : String) (r : Request) (h1 : r.Method ≠ "OPTIONS")
    (h2 : r.Method ≠ "POST") :
    respond (msgHandler now) r =
      { status := 405, header := errorHeader corsHeader,
        body := if r.Method = "HEAD" then "" else "Method not allowed\n", logged := [] } := by
  simp [respond, msgHandler, h1, h2, enableCORS_fresh, httpError_uncommitted, finish]

theorem respond_msgHandler_parse (now : String) (r : Request) (h : r.Method = "POST")
    (hf : r.ParseForm = none) :
    respond (msgHandler now) r =
      { status := 400, header := errorHeader corsHeader, body := "Failed to parse form\n",
        logged := [] } := by
  simp [respond, msgHandler, h, hf, enableCORS_fresh, httpError_uncommitted, finish]

theorem respond_msgHandler_missing (now : String) (r : Request) (form : Values)
    (h : r.Method = "POST") (hf : r.ParseForm = some form)
    (he : FormValue form "user" = "" ∨ FormValue form "msg" = "" ∨ FormValue form "cate" = "") :
    respond (msgHandler now) r =
      { status := 400, header := errorHeader corsHeader, body := "Missing required fields\n",
        logged := [] } := by
  simp [respond, msgHandler, h, hf, he, enableCORS_fresh, httpError_uncommitted, finish]

theorem respond_msgHandler_accept (now : String) (r : Request) (form : Values)
    (h : r.Method = "POST") (hf : r.ParseForm = some form)
    (hu : FormValue form "user" ≠ "") (hm : FormValue form "msg" ≠ "")
    (hc : FormValue form "cate" ≠ "") :
    respond (msgHandler now) r =
      { status := 200, header := corsHeader, body := successBody,
        logged := [{ User := FormValue form "user", Msg := FormValue form "msg",
                     Cate := FormValue form "cate", Time := now,
                     IP := if Values.Get r.Header "X-Forwarded-For" ≠ "" then
                             Values.Get r.Header "X-Forwarded-For"
                           else r.RemoteAddr }] } := by
  simp [respond, msgHandler, h, hf, hu, hm, hc, enableCORS_fresh, finish,
    ResponseWriter.WriteHeader, ResponseWriter.Write, successBody]

theorem respond_listHandler_options (quote : String → String) (r : Request)
    (h : r.Method = "OPTIONS") :
    respond (listHandler quote) r =
      { status := 200, header := corsHeader, body := "", logged := [] } := by
  simp [respond, listHandler, h, enableCORS_fresh, finish]

theorem respond_listHandler_method (quote : String → String) (r : Request)
    (h1 : r.Method ≠ "OPTIONS") (h2 : r.Method ≠ "GET") :
    respond (listHandler quote) r =
      { status := 405, header := errorHeader corsHeader,
        body := if r.Method = "HEAD" then "" else "Method not allowed\n", logged := [] } := by
  simp [respond, listHandler, h1, h2, enableCORS_fresh, httpError_uncommitted, finish]

theorem respond_listHandler_missing (quote : String → String) (r : Request)
    (h : r.Method = "GET") (hc : Values.Get r.Query "cate" = "") :
    respond (listHandler quote) r =
      { status := 400, header := errorHeader corsHeader, body := "Missing cate parameter\n",
        logged := [] } := by
  simp [respond, listHandler, h, hc, enableCORS_fresh, httpError_uncommitted, finish]

theorem respond_listHandler_accept (quote : String → String) (r : Request)
    (h : r.Method = "GET") (hc : Values.Get r.Query "cate" ≠ "") :
    respond (listHandler quote) r =
      { status := 200, header := Values.Set corsHeader "Content-Type" "application/json",
        body := emptyListing ++ "\n", logged := [] } := by
  simp [respond, listHandler, h, hc, enableCORS_fresh, finish, jsonEncode, Response.json,
    ResponseWriter.WriteHeader, ResponseWriter.Write, ResponseWriter.SetHeader, emptyListing,
    String.intercalate]

theorem respond_rootHandler_options (r : Request) (h : r.Method = "OPTIONS") :
    respond rootHandler r =
      { status := 200, header := corsHeader, body := "", logged := [] } := by
  simp [respond, rootHandler, h, handleOptions, enableCORS_fresh, finish,
    ResponseWriter.WriteHeader]

theorem respond_rootHandler_notFound (r : Request) (h : r.Method ≠ "OPTIONS") :
    respond rootHandler r =
      { status := 404, header := errorHeader Values.empty,
        body := if r.Method = "HEAD" then "" else "404 page not found\n", logged := [] } := by
  simp [respond, rootHandler, h, httpNotFound, ResponseWriter.fresh, httpError_uncommitted,
    finish]

theorem respond_msgHandler_hasCORS (now : String) (r : Request) :
    HasCORS (respond (msgHandler now) r).header := by
  by_cases h1 : r.Method = "OPTIONS"
  · rw [respond_msgHandler_options now r h1]; exact hasCORS_corsHeader
  · by_cases h2 : r.Method = "POST"
    · cases hf : r.ParseForm with
      | none => rw [respond_msgHandler_parse now r h2 hf]; exact hasCORS_errorHeader
      | some form =>
        by_cases he : FormValue form "user" = "" ∨ FormValue form "msg" = "" ∨
            FormValue form "cate" = ""
        · rw [respond_msgHandler_missing now r form h2 hf he]; exact hasCORS_errorHeader
        · simp only [not_or] at he
          rw [respond_msgHandler_accept now r form h2 hf he.1 he.2.1 he.2.2]
          exact hasCORS_corsHeader
    · rw [respond_msgHandler_method now r h1 h2]; exact hasCORS_errorHeader

theorem respond_listHandler_hasCORS (quote : String → String) (r : Request) :
    HasCORS (respond (listHandler quote) r).header := by
  by_cases h1 : r.Method = "OPTIONS"
  · rw [respond_listHandler_options quote r h1]; exact hasCORS_corsHeader
  · by_cases h2 : r.Method = "GET"
    · by_cases hc : Values.Get r.Query "cate" = ""
      · rw [respond_listHandler_missing quote r h2 hc]; exact hasCORS_errorHeader
      · rw [respond_listHandler_accept quote r h2 hc]
        simp [HasCORS, corsHeader, Values.Get, Values.Set]
    · rw [respond_listHandler_method quote r h1 h2]; exact hasCORS_errorHeader

/-- On a canonical path an `OPTIONS` request reaches one of the three registered
handlers and gets status 200, an empty body and the headers of `enableCORS`. -/
theorem serve_options_canonical (txt : RedirectText) (now : String) (quote : String → String)
    (r : Request) (hc : Canonical r.Path) (hopt : r.Method = "OPTIONS") :
    serve txt now quote r = { status := 200, header := corsHeader, body := "", logged := [] } := by
  by_cases hm : r.Path = "/msg"
  · rw [serve_msg txt now quote r hm, respond_msgHandler_options now r hopt]
  · by_cases hl : r.Path = "/list"
    · rw [serve_list txt now quote r hl, respond_listHandler_options quote r hopt]
    · rw [serve_other txt now quote r hc hm hl, respond_rootHandler_options r hopt]

/-! ## The claims -/

/-- C1 (counterexample): the response to `GET /nope` is the 404 of the catch-all
route and its `Access-Control-Allow-Origin` header is not `*`. -/
theorem C1_notFound_lacks_allow_origin :
    sampleUnknown.Method ≠ "OPTIONS" ∧
    (serve sampleText sampleNow sampleQuote sampleUnknown).status = 404 ∧
    Values.Get (serve sampleText sampleNow sampleQuote sampleUnknown).header
      "Access-Control-Allow-Origin" ≠ "*" := by
  decide

/-- C1 (amended): for a request whose path is canonical, so that one of the
three registered handlers answers it, the response carries
`Access-Control-Allow-Origin: *` when the path is `/msg` or `/list` (any method,
success or error) or the method is `OPTIONS`; every other such response is the
404 of the catch-all route and has no `Access-Control-Allow-Origin` header. -/
theorem C1_allow_origin_where_enableCORS_runs (txt : RedirectText) (now : String)
    (quote : String → String) (r : Request) (hcanon : Canonical r.Path) :
    if r.Path = "/msg" ∨ r.Path = "/list" ∨ r.Method = "OPTIONS" then
      Values.Get (serve txt now quote r).header "Access-Control-Allow-Origin" = "*"
    else
      (serve txt now quote r).status = 404 ∧
      (serve txt now quote r).header "Access-Control-Allow-Origin" = [] := by
  by_cases hm : r.Path = "/msg"
  · simp only [hm, true_or, if_true]
    rw [serve_msg txt now quote r hm]
    exact (respond_msgHandler_hasCORS now r).1
  · by_cases hl : r.Path = "/list"
    · simp only [hl, true_or, or_true, if_true]
      rw [serve_list txt now quote r hl]
      exact (respond_listHandler_hasCORS quote r).1
    · rw [serve_other txt now quote r hcanon hm hl]
      by_cases ho : r.Method = "OPTIONS"
      · simp only [ho, or_true, if_true]
        rw [respond_rootHandler_options r ho]
        exact hasCORS_corsHeader.1
      · simp only [hm, hl, ho, or_self, if_false]
        rw [respond_rootHandler_notFound r ho]
        simp [errorHeader, Values.Set, Values.Del, Values.empty]

/-- C1 (witness): `GET /list?cate=general` carries the header, `GET /nope` is
the bare 404. -/
theorem C1_allow_origin_where_enableCORS_runs_witness :
    (Canonical sampleList.Path ∧
      Values.Get (serve sampleText sampleNow sampleQuote sampleList).header
        "Access-Control-Allow-Origin" = "*") ∧
    (Canonical sampleUnknown.Path ∧
      (serve sampleText sampleNow sampleQuote sampleUnknown).status = 404 ∧
      (serve sampleText sampleNow sampleQuote sampleUnknown).header
        "Access-Control-Allow-Origin" = []) :=
  ⟨⟨by decide,
    C1_allow_origin_where_enableCORS_runs sampleText sampleNow sampleQuote sampleList
      (by decide)⟩,
   ⟨by decide,
    C1_allow_origin_where_enableCORS_runs sampleText sampleNow sampleQuote sampleUnknown
      (by decide)⟩⟩

/-- C2: a POST whose form parses with non-empty `user`, `msg` and `cate` makes
`msgHandler` answer status 200 with the body `消息发送成功！`, for every header map
and remote address. -/
theorem C2_msgHandler_accepts (now : String) (r : Request) (form : Values)
    (hpost : r.Method = "POST") (hform : r.ParseForm = some form)
    (huser : FormValue form "user" ≠ "") (hmsg : FormValue form "msg" ≠ "")
    (hcate : FormValue form "cate" ≠ "") :
    (respond (msgHandler now) r).status = 200 ∧
    (respond (msgHandler now) r).body = "消息发送成功！" := by
  rw [respond_msgHandler_accept now r form hpost hform huser hmsg hcate]
  exact ⟨rfl, rfl⟩

/-- C2 (witness): `POST /msg` with `user=alice&msg=hello&cate=general`. -/
theorem C2_msgHandler_accepts_witness :
    samplePost.Method = "POST" ∧
    (respond (msgHandler sampleNow) samplePost).status = 200 ∧
    (respond (msgHandler sampleNow) samplePost).body = "消息发送成功！" :=
  ⟨rfl, C2_msgHandler_accepts sampleNow samplePost
    (Values.ofList [("user", "alice"), ("msg", "hello"), ("cate", "general")])
    rfl rfl (by decide) (by decide) (by decide)⟩

/-- C3: a POST in which `user`, `msg` or `cate` is absent or empty (or whose
form does not parse at all) makes `msgHandler` answer status 400, with a body
other than the success text, and log no `Message`. -/
theorem C3_msgHandler_rejects_missing (now : String) (r : Request)
    (hpost : r.Method = "POST")
    (hmiss : ∀ form, r.ParseForm = some form →
      FormValue form "user" = "" ∨ FormValue form "msg" = "" ∨ FormValue form "cate" = "") :
    (respond (msgHandler now) r).status = 400 ∧
    (respond (msgHandler now) r).body ≠ successBody ∧
    (respond (msgHandler now) r).logged = [] := by
  cases hf : r.ParseForm with
  | none =>
    rw [respond_msgHandler_parse now r hpost hf]
    exact ⟨rfl, by decide, rfl⟩
  | some form =>
    rw [respond_msgHandler_missing now r form hpost hf (hmiss form hf)]
    exact ⟨rfl, by decide, rfl⟩

/-- C3 (witness): `POST /msg` with `user=alice&msg=hello` and no `cate`. -/
theorem C3_msgHandler_rejects_missing_witness :
    FormValue (Values.ofList [("user", "alice"), ("msg", "hello")]) "cate" = "" ∧
    (respond (msgHandler sampleNow) sampleMissing).status = 400 ∧
    (respond (msgHandler sampleNow) sampleMissing).body ≠ successBody ∧
    (respond (msgHandler sampleNow) sampleMissing).logged = [] :=
  ⟨by decide, C3_msgHandler_rejects_missing sampleNow sampleMissing rfl
    (fun form hf => by
      have hform : form = Values.ofList [("user", "alice"), ("msg", "hello")] :=
        (Option.some.inj hf).symm
      subst hform
      exact Or.inr (Or.inr (by decide)))⟩

/-- C4 (counterexample): the body of the response to `GET /list?cate=general`
is not the text `{"Msgs":[]}`; the encoder ends it with a newline. -/
theorem C4_listing_body_has_newline :
    sampleList.Method = "GET" ∧ Values.Get sampleList.Query "cate" ≠ "" ∧
    (respond (listHandler sampleQuote) sampleList).status = 200 ∧
    (respond (listHandler sampleQuote) sampleList).body ≠ emptyListing := by
  decide

/-- C4 (amended): a GET whose `cate` query parameter is non-empty makes
`listHandler` answer status 200, `Content-Type: application/json` and the body
`{"Msgs":[]}` followed by one newline character; two such requests get the same
response, whatever their `cate` values. -/
theorem C4_listHandler_empty_listing (quote : String → String) (r1 r2 : Request)
    (hget1 : r1.Method = "GET") (hcate1 : Values.Get r1.Query "cate" ≠ "")
    (hget2 : r2.Method = "GET") (hcate2 : Values.Get r2.Query "cate" ≠ "") :
    (respond (listHandler quote) r1).status = 200 ∧
    Values.Get (respond (listHandler quote) r1).header "Content-Type" = "application/json" ∧
    (respond (listHandler quote) r1).body = emptyListing ++ "\n" ∧
    respond (listHandler quote) r2 = respond (listHandler quote) r1 := by
  rw [respond_listHandler_accept quote r1 hget1 hcate1,
    respond_listHandler_accept quote r2 hget2 hcate2]
  exact ⟨rfl, by simp [Values.Get, Values.Set], rfl, rfl⟩

/-- C4 (witness): `GET /list?cate=general` and `GET /list?cate=other`. -/
theorem C4_listHandler_empty_listing_witness :
    Values.Get sampleList.Query "cate" ≠ Values.Get sampleListOther.Query "cate" ∧
    (respond (listHandler sampleQuote) sampleList).status = 200 ∧
    Values.Get (respond (listHandler sampleQuote) sampleList).header "Content-Type" =
      "application/json" ∧
    (respond (listHandler sampleQuote) sampleList).body = emptyListing ++ "\n" ∧
    respond (listHandler sampleQuote) sampleListOther =
      respond (listHandler sampleQuote) sampleList :=
  ⟨by decide, C4_listHandler_empty_listing sampleQuote sampleList sampleListOther
    rfl (by decide) rfl (by decide)⟩

/-- C5: a GET whose `cate` query parameter is missing or empty makes
`listHandler` answer status 400 with the plain-text error line as body, which
is not the JSON listing. -/
theorem C5_listHandler_rejects_missing_cate (quote : String → String) (r : Request)
    (hget : r.Method = "GET") (hcate : Values.Get r.Query "cate" = "") :
    (respond (listHandler quote) r).status = 400 ∧
    (respond (listHandler quote) r).body = "Missing cate parameter\n" ∧
    (respond (listHandler quote) r).body ≠ emptyListing ∧
    (respond (listHandler quote) r).body ≠ emptyListing ++ "\n" ∧
    Values.Get (respond (listHandler quote) r).header "Content-Type" ≠ "application/json" := by
  rw [respond_listHandler_missing quote r hget hcate]
  refine ⟨rfl, rfl, by decide, by decide, ?_⟩
  simp [errorHeader, Values.Get, Values.Set]

/-- C5 (witness): `GET /list` without a query string. -/
theorem C5_listHandler_rejects_missing_cate_witness :
    sampleNoCate.Query "cate" = [] ∧
    (respond (listHandler sampleQuote) sampleNoCate).status = 400 ∧
    (respond (listHandler sampleQuote) sampleNoCate).body = "Missing cate parameter\n" ∧
    (respond (listHandler sampleQuote) sampleNoCate).body ≠ emptyListing ∧
    (respond (listHandler sampleQuote) sampleNoCate).body ≠ emptyListing ++ "\n" ∧
    Values.Get (respond (listHandler sampleQuote) sampleNoCate).header "Content-Type" ≠
      "application/json" :=
  ⟨rfl, C5_listHandler_rejects_missing_cate sampleQuote sampleNoCate rfl rfl⟩

/-- C6 (the code at the failing inputs): `OPTIONS //nope` is answered by the mux
with a 301 redirect and `OPTIONS *` by the server with a bare 200; neither
reaches the handler that `main` registers "to handle all OPTIONS requests",
and neither response has any of the four CORS headers. -/
theorem C6_options_outside_the_handlers :
    (sampleOptionsSlashes.Method = "OPTIONS" ∧
      (serve sampleText sampleNow sampleQuote sampleOptionsSlashes).status = 301 ∧
      (serve sampleText sampleNow sampleQuote sampleOptionsSlashes).header
        "Access-Control-Allow-Origin" = [] ∧
      (serve sampleText sampleNow sampleQuote sampleOptionsSlashes).header
        "Access-Control-Allow-Methods" = [] ∧
      (serve sampleText sampleNow sampleQuote sampleOptionsSlashes).header
        "Access-Control-Allow-Headers" = [] ∧
      (serve sampleText sampleNow sampleQuote sampleOptionsSlashes).header
        "Access-Control-Max-Age" = []) ∧
    (sampleOptionsStar.Method = "OPTIONS" ∧
      (serve sampleText sampleNow sampleQuote sampleOptionsStar).status = 200 ∧
      (serve sampleText sampleNow sampleQuote sampleOptionsStar).header
        "Access-Control-Allow-Origin" = [] ∧
      (serve sampleText sampleNow sampleQuote sampleOptionsStar).header
        "Access-Control-Allow-Methods" = [] ∧
      (serve sampleText sampleNow sampleQuote sampleOptionsStar).header
        "Access-Control-Allow-Headers" = [] ∧
      (serve sampleText sampleNow sampleQuote sampleOptionsStar).header
        "Access-Control-Max-Age" = []) := by
  decide

/-- C7 (counterexample): `OPTIONS /msg` is a request to `/msg` whose method is
not POST, and its status is 200, not 405. -/
theorem C7_options_msg_is_not_405 :
    samplePreflight.Path = "/msg" ∧ samplePreflight.Method ≠ "POST" ∧
    (serve sampleText sampleNow sampleQuote samplePreflight).status = 200 ∧
    (serve sampleText sampleNow sampleQuote samplePreflight).status ≠ 405 := by
  decide

/-- C7 (amended): a request to `/msg` whose method is not POST gets status 405,
except that method OPTIONS gets status 200. -/
theorem C7_msg_non_post_status (txt : RedirectText) (now : String) (quote : String → String)
    (r : Request) (hpath : r.Path = "/msg") (hmethod : r.Method ≠ "POST") :
    (serve txt now quote r).status = if r.Method = "OPTIONS" then 200 else 405 := by
  rw [serve_msg txt now quote r hpath]
  by_cases ho : r.Method = "OPTIONS"
  · rw [respond_msgHandler_options now r ho, if_pos ho]
  · rw [respond_msgHandler_method now r ho hmethod, if_neg ho]

/-- C7 (witness): `GET /msg` gets 405. -/
theorem C7_msg_non_post_status_witness :
    sampleGetMsg.Method ≠ "POST" ∧ sampleGetMsg.Method ≠ "OPTIONS" ∧
    (serve sampleText sampleNow sampleQuote sampleGetMsg).status = 405 :=
  ⟨by decide, by decide,
    C7_msg_non_post_status sampleText sampleNow sampleQuote sampleGetMsg rfl (by decide)⟩

/-- C8: the method check comes before any look at the fields.  A request to
`/msg` whose method is neither POST nor OPTIONS, and a request to `/list` whose
method is neither GET nor OPTIONS, gets status 405 (so neither 400 nor 200),
the "Method not allowed" body (no body in answer to HEAD) and no log record,
for every form, query, header map and remote address. -/
theorem C8_method_gate_first (txt : RedirectText) (now : String) (quote : String → String)
    (r : Request)
    (hroute : (r.Path = "/msg" ∧ r.Method ≠ "POST") ∨ (r.Path = "/list" ∧ r.Method ≠ "GET"))
    (hopt : r.Method ≠ "OPTIONS") :
    (serve txt now quote r).status = 405 ∧ (serve txt now quote r).status ≠ 400 ∧
    (serve txt now quote r).status ≠ 200 ∧
    (serve txt now quote r).body = (if r.Method = "HEAD" then "" else "Method not allowed\n") ∧
    (serve txt now quote r).logged = [] := by
  rcases hroute with ⟨hp, hm⟩ | ⟨hp, hm⟩
  · rw [serve_msg txt now quote r hp, respond_msgHandler_method now r hopt hm]
    exact ⟨rfl, by simp, by simp, rfl, rfl⟩
  · rw [serve_list txt now quote r hp, respond_listHandler_method quote r hopt hm]
    exact ⟨rfl, by simp, by simp, rfl, rfl⟩

/-- C8 (witness): `PUT /msg` with a complete form, `DELETE /list?cate=general`
and `HEAD /msg`. -/
theorem C8_method_gate_first_witness :
    (samplePut.ParseForm = samplePost.ParseForm ∧
      (serve sampleText sampleNow sampleQuote samplePut).status = 405 ∧
      (serve sampleText sampleNow sampleQuote samplePut).body = "Method not allowed\n") ∧
    (Values.Get sampleDelete.Query "cate" = "general" ∧
      (serve sampleText sampleNow sampleQuote sampleDelete).status = 405) ∧
    ((serve sampleText sampleNow sampleQuote sampleHeadMsg).status = 405 ∧
      (serve sampleText sampleNow sampleQuote sampleHeadMsg).body = "") :=
  ⟨⟨rfl,
    (C8_method_gate_first sampleText sampleNow sampleQuote samplePut
      (Or.inl ⟨rfl, by decide⟩) (by decide)).1,
    (C8_method_gate_first sampleText sampleNow sampleQuote samplePut
      (Or.inl ⟨rfl, by decide⟩) (by decide)).2.2.2.1⟩,
   ⟨by decide, (C8_method_gate_first sampleText sampleNow sampleQuote sampleDelete
      (Or.inr ⟨rfl, by decide⟩) (by decide)).1⟩,
   ⟨(C8_method_gate_first sampleText sampleNow sampleQuote sampleHeadMsg
      (Or.inl ⟨rfl, by decide⟩) (by decide)).1,
    (C8_method_gate_first sampleText sampleNow sampleQuote sampleHeadMsg
      (Or.inl ⟨rfl, by decide⟩) (by decide)).2.2.2.1⟩⟩

/-- C9 (counterexample): `GET //nope` and `GET /a/../list` are requests on paths
other than `/msg` and `/list` with a method other than OPTIONS, and the mux
answers them with a 301 redirect, not with 404. -/
theorem C9_unclean_path_is_redirected :
    (sampleSlashes.Path ≠ "/msg" ∧ sampleSlashes.Path ≠ "/list" ∧
      sampleSlashes.Method ≠ "OPTIONS" ∧
      (serve sampleText sampleNow sampleQuote sampleSlashes).status = 301 ∧
      (serve sampleText sampleNow sampleQuote sampleSlashes).status ≠ 404) ∧
    (sampleDotDot.Path ≠ "/msg" ∧ sampleDotDot.Path ≠ "/list" ∧
      sampleDotDot.Method ≠ "OPTIONS" ∧
      (serve sampleText sampleNow sampleQuote sampleDotDot).status = 301 ∧
      (serve sampleText sampleNow sampleQuote sampleDotDot).status ≠ 404) := by
  decide

/-- C9 (amended): the dispatcher hands path `/msg` to `msgHandler` and path
`/list` to `listHandler`; on every other canonical path the response is 200 for
method OPTIONS and 404 for every other method. -/
theorem C9_dispatch (txt : RedirectText) (now : String) (quote : String → String)
    (r : Request) :
    (r.Path = "/msg" → serve txt now quote r = respond (msgHandler now) r) ∧
    (r.Path = "/list" → serve txt now quote r = respond (listHandler quote) r) ∧
    (Canonical r.Path → r.Path ≠ "/msg" → r.Path ≠ "/list" →
      (r.Method = "OPTIONS" → (serve txt now quote r).status = 200) ∧
      (r.Method ≠ "OPTIONS" → (serve txt now quote r).status = 404)) := by
  refine ⟨serve_msg txt now quote r, serve_list txt now quote r, fun hc hm hl => ?_⟩
  rw [serve_other txt now quote r hc hm hl]
  constructor
  · intro ho
    rw [respond_rootHandler_options r ho]
  · intro ho
    rw [respond_rootHandler_notFound r ho]

/-- C9 (witness): `POST /msg`, `GET /list?cate=general`, `OPTIONS /nope` and
`GET /nope`. -/
theorem C9_dispatch_witness :
    (serve sampleText sampleNow sampleQuote samplePost =
      respond (msgHandler sampleNow) samplePost) ∧
    (serve sampleText sampleNow sampleQuote sampleList =
      respond (listHandler sampleQuote) sampleList) ∧
    (serve sampleText sampleNow sampleQuote sampleOptionsUnknown).status = 200 ∧
    (sampleUnknown.Method = "GET" ∧
      (serve sampleText sampleNow sampleQuote sampleUnknown).status = 404) :=
  ⟨(C9_dispatch sampleText sampleNow sampleQuote samplePost).1 rfl,
   (C9_dispatch sampleText sampleNow sampleQuote sampleList).2.1 rfl,
   ((C9_dispatch sampleText sampleNow sampleQuote sampleOptionsUnknown).2.2
      (by decide) (by decide) (by decide)).1 rfl,
   rfl,
   ((C9_dispatch sampleText sampleNow sampleQuote sampleUnknown).2.2
      (by decide) (by decide) (by decide)).2 (by decide)⟩

/-- C10: on an accepted submission `msgHandler` builds and logs exactly one
`Message`; its `User`, `Msg` and `Cate` are the submitted form values, its
`Time` is the formatted clock reading, and its `IP` is the `X-Forwarded-For`
header when `Header.Get` reads it non-empty and `RemoteAddr` otherwise. -/
theorem C10_message_fields (now : String) (r : Request) (form : Values)
    (hpost : r.Method = "POST") (hform : r.ParseForm = some form)
    (huser : FormValue form "user" ≠ "") (hmsg : FormValue form "msg" ≠ "")
    (hcate : FormValue form "cate" ≠ "") :
    ∃ m : Message, (respond (msgHandler now) r).logged = [m] ∧
      m.User = FormValue form "user" ∧ m.Msg = FormValue form "msg" ∧
      m.Cate = FormValue form "cate" ∧ m.Time = now ∧
      (Values.Get r.Header "X-Forwarded-For" ≠ "" →
        m.IP = Values.Get r.Header "X-Forwarded-For") ∧
      (Values.Get r.Header "X-Forwarded-For" = "" → m.IP = r.RemoteAddr) := by
  rw [respond_msgHandler_accept now r form hpost hform huser hmsg hcate]
  refine ⟨_, rfl, rfl, rfl, rfl, rfl, ?_, ?_⟩
  · intro hx
    simp [hx]
  · intro hx
    simp [hx]

/-- C10 (witness): the sample submission sent directly and through a proxy
that set `X-Forwarded-For: 203.0.113.7`. -/
theorem C10_message_fields_witness :
    (∃ m : Message, (respond (msgHandler sampleNow) sampleForwarded).logged = [m] ∧
      m.User = "alice" ∧ m.Msg = "hello" ∧ m.Cate = "general" ∧ m.IP = "203.0.113.7") ∧
    (∃ m : Message, (respond (msgHandler sampleNow) samplePost).logged = [m] ∧
      m.User = "alice" ∧ m.Msg = "hello" ∧ m.Cate = "general" ∧ m.IP = "192.0.2.1:5000") := by
  obtain ⟨m1, h1, hu1, hm1, hc1, _, hx1, _⟩ :=
    C10_message_fields sampleNow sampleForwarded
      (Values.ofList [("user", "alice"), ("msg", "hello"), ("cate", "general")])
      rfl rfl (by decide) (by decide) (by decide)
  obtain ⟨m2, h2, hu2, hm2, hc2, _, _, hr2⟩ :=
    C10_message_fields sampleNow samplePost
      (Values.ofList [("user", "alice"), ("msg", "hello"), ("cate", "general")])
      rfl rfl (by decide) (by decide) (by decide)
  exact ⟨⟨m1, h1, hu1, hm1, hc1, hx1 (by decide)⟩, ⟨m2, h2, hu2, hm2, hc2, hr2 (by decide)⟩⟩

end CORSDemo
